import Mathlib

/-!
# Verification of the pico-gs rendering core against its specification

Shallow embedding of the Rust sources of the `pico-gs` repository
(`src/crates/pico-gs-core`, `src/crates/pico-gs-rp2350`, `src/firmware`).

Modelling conventions:
* Rust `f32` values are modelled by exact rationals (`ℚ`); every `f32`
  operation appearing in the embedded code (add, sub, mul, div, compare,
  clamp) is exact at the inputs the claims evaluate, and the truncating /
  saturating semantics of Rust float-to-integer `as` casts are made
  explicit (`ftrunc`, `satI16`, `u32Sat`).
* Machine integers (`u8/u16/u32/u64`) are modelled by `ℕ` (with `ℤ` as the
  intermediate for signed casts); wrapping is written out with `% 2^w`
  where the code can wrap.
* Fallible operations return `Except`; SPI traffic is recorded in an
  explicit event trace.
-/

/-! ## Fixed-point codec (src/crates/pico-gs-core/src/math/fixed.rs) -/

/-- Truncation toward zero of a rational: the rounding used by Rust
float-to-integer `as` casts. -/
def ftrunc (q : ℚ) : ℤ := if 0 ≤ q then ⌊q⌋ else -⌊-q⌋

/-- Rust `f32::clamp(lo, hi)` (for non-NaN inputs and `lo ≤ hi`). -/
def rclamp (v lo hi : ℚ) : ℚ := max lo (min hi v)

/-- Saturation of a Rust `f32 as i16` cast into the `i16` range. -/
def satI16 (z : ℤ) : ℤ := max (-32768) (min 32767 z)

/-- Reinterpretation of an `i16` value as `u16` (two's complement),
the Rust `as u16` cast on an `i16`. -/
def u16OfI16 (z : ℤ) : ℕ := (z % 65536).toNat

/-- Saturation of a Rust `f32 as u32` cast into the `u32` range
(negative values saturate to 0). -/
def u32Sat (z : ℤ) : ℕ := min z.toNat 4294967295

/-- `f32_to_12_4` (fixed.rs:12-16): clamp to `[-2048.0, 2047.9375]`,
scale by 16, cast `as i16` then `as u16`. -/
def f32_to_12_4 (val : ℚ) : ℕ :=
  let clamped := rclamp val (-2048) 2047.9375
  u16OfI16 (satI16 (ftrunc (clamped * 16)))

/-- `f32_to_1_15` (fixed.rs:22-26): clamp to `[-1.0, 0.99997]`, scale by
32768, cast `as i16` then `as u16`.  (The `f32` literal `0.99997` denotes
the nearest float; the difference to the exact decimal, about `3e-13`,
does not move any truncation result proved below.) -/
def f32_to_1_15 (val : ℚ) : ℕ :=
  let clamped := rclamp val (-1) 0.99997
  u16OfI16 (satI16 (ftrunc (clamped * 32768)))

/-- `f32_to_z25` (fixed.rs:31-35): clamp to `[0.0, 1.0]`, scale by
`0x1FF_FFFF as f32`, cast `as u32`, then `.min(0x1FF_FFFF)`.
The constant `0x1FF_FFFF = 2^25 - 1` needs 25 significand bits, so its
`as f32` conversion rounds (to nearest, ties to even) to `2^25 =
33554432.0`; the scale factor below is that rounded value. -/
def f32_to_z25 (val : ℚ) : ℕ :=
  let clamped := rclamp val 0 1
  let scaled := u32Sat (ftrunc (clamped * 33554432))
  min scaled 0x1FFFFFF

/-- `rgba_to_packed` (fixed.rs:38-40). -/
def rgba_to_packed (r g b a : ℕ) : ℕ :=
  (a <<< 24) ||| (b <<< 16) ||| (g <<< 8) ||| r

lemma rclamp_of_le_lo {v lo hi : ℚ} (h : v ≤ lo) :
    rclamp v lo hi = lo := by
  unfold rclamp
  exact max_eq_left (le_trans (min_le_right _ _) h)

lemma rclamp_of_hi_le {v lo hi : ℚ} (h : hi ≤ v) (hlh : lo ≤ hi) :
    rclamp v lo hi = hi := by
  unfold rclamp
  rw [min_eq_left h]
  exact max_eq_right hlh

lemma f32_to_12_4_of_le_min {q : ℚ} (h : q ≤ -2048) : f32_to_12_4 q = 32768 := by
  unfold f32_to_12_4
  rw [rclamp_of_le_lo h]
  norm_num [ftrunc, satI16, u16OfI16, Int.toNat_ofNat]
  decide

lemma f32_to_12_4_of_max_le {q : ℚ} (h : 2047.9375 ≤ q) : f32_to_12_4 q = 32767 := by
  unfold f32_to_12_4
  rw [rclamp_of_hi_le h (by norm_num)]
  norm_num [ftrunc, satI16, u16OfI16, Int.toNat_ofNat]
  decide

lemma f32_to_1_15_of_le_min {q : ℚ} (h : q ≤ -1) : f32_to_1_15 q = 32768 := by
  unfold f32_to_1_15
  rw [rclamp_of_le_lo h]
  norm_num [ftrunc, satI16, u16OfI16, Int.toNat_ofNat]
  decide

lemma f32_to_1_15_of_max_le {q : ℚ} (h : 0.99997 ≤ q) : f32_to_1_15 q = 32767 := by
  unfold f32_to_1_15
  rw [rclamp_of_hi_le h (by norm_num)]
  norm_num [ftrunc, satI16, u16OfI16, Int.toNat_ofNat]
  decide

lemma f32_to_z25_of_le_min {q : ℚ} (h : q ≤ 0) : f32_to_z25 q = 0 := by
  unfold f32_to_z25
  rw [rclamp_of_le_lo h]
  norm_num [ftrunc, u32Sat]

lemma f32_to_z25_of_max_le {q : ℚ} (h : 1 ≤ q) : f32_to_z25 q = 0x1FFFFFF := by
  unfold f32_to_z25
  rw [rclamp_of_hi_le h (by norm_num)]
  norm_num [ftrunc, u32Sat]

/-- C7 counterexample: the claim asserts that every encoder maps its range
minimum to code 0, but the signed Q12.4 encoder maps its minimum
`-2048.0` to the two's-complement code `0x8000 = 32768`, not 0 (the
repository's own test `min_negative` asserts the `i16` value `-32768`). -/
theorem f32_to_12_4_min_not_zero : ¬ (f32_to_12_4 (-2048) = 0) := by
  rw [f32_to_12_4_of_le_min (by norm_num)]
  norm_num

/-- C7 (amended): the unsigned depth encoder maps its range minimum to
code 0; the signed Q12.4 and Q1.15 encoders map their range minima to the
minimum two's-complement code `0x8000`. Each encoder maps its range
maximum to the maximum code (`0x7FFF` signed, `0x1FFFFFF` for depth), and
every out-of-range input clamps to the corresponding boundary code and
never wraps around. -/
theorem fixed_encoders_boundary :
    (f32_to_12_4 (-2048) = 0x8000 ∧ f32_to_12_4 2047.9375 = 0x7FFF
      ∧ f32_to_1_15 (-1) = 0x8000 ∧ f32_to_1_15 0.99997 = 0x7FFF
      ∧ f32_to_z25 0 = 0 ∧ f32_to_z25 1 = 0x1FFFFFF)
    ∧ (∀ q : ℚ, q < -2048 → f32_to_12_4 q = 0x8000)
    ∧ (∀ q : ℚ, 2047.9375 < q → f32_to_12_4 q = 0x7FFF)
    ∧ (∀ q : ℚ, q < -1 → f32_to_1_15 q = 0x8000)
    ∧ (∀ q : ℚ, 0.99997 < q → f32_to_1_15 q = 0x7FFF)
    ∧ (∀ q : ℚ, q < 0 → f32_to_z25 q = 0)
    ∧ (∀ q : ℚ, 1 < q → f32_to_z25 q = 0x1FFFFFF) := by
  refine ⟨⟨?_, ?_, ?_, ?_, ?_, ?_⟩, ?_, ?_, ?_, ?_, ?_, ?_⟩
  · exact f32_to_12_4_of_le_min le_rfl
  · exact f32_to_12_4_of_max_le le_rfl
  · exact f32_to_1_15_of_le_min le_rfl
  · exact f32_to_1_15_of_max_le le_rfl
  · exact f32_to_z25_of_le_min le_rfl
  · exact f32_to_z25_of_max_le le_rfl
  · exact fun q h => f32_to_12_4_of_le_min h.le
  · exact fun q h => f32_to_12_4_of_max_le h.le
  · exact fun q h => f32_to_1_15_of_le_min h.le
  · exact fun q h => f32_to_1_15_of_max_le h.le
  · exact fun q h => f32_to_z25_of_le_min h.le
  · exact fun q h => f32_to_z25_of_max_le h.le

/-- Witness for `fixed_encoders_boundary`: the out-of-range clauses at the
concrete inputs `-3000`, `3000`, `-2`, `2`, `-0.5`, `1.5`. -/
theorem fixed_encoders_boundary_witness :
    f32_to_12_4 (-3000) = 0x8000 ∧ f32_to_12_4 3000 = 0x7FFF
      ∧ f32_to_1_15 (-2) = 0x8000 ∧ f32_to_1_15 2 = 0x7FFF
      ∧ f32_to_z25 (-0.5) = 0 ∧ f32_to_z25 1.5 = 0x1FFFFFF :=
  ⟨fixed_encoders_boundary.2.1 (-3000) (by norm_num),
   fixed_encoders_boundary.2.2.1 3000 (by norm_num),
   fixed_encoders_boundary.2.2.2.1 (-2) (by norm_num),
   fixed_encoders_boundary.2.2.2.2.1 2 (by norm_num),
   fixed_encoders_boundary.2.2.2.2.2.1 (-0.5) (by norm_num),
   fixed_encoders_boundary.2.2.2.2.2.2 1.5 (by norm_num)⟩

/-! ## GPU register constants (src/crates/pico-gs-core/src/gpu/registers.rs,
field offsets from src/registers/src/components/gpu_regs/named_types) -/

namespace registers

def COLOR : ℕ := 0x00
def UV0_UV1 : ℕ := 0x01
def VERTEX_NOKICK : ℕ := 0x06
def VERTEX_KICK_012 : ℕ := 0x07
def VERTEX_KICK_021 : ℕ := 0x08
def RENDER_MODE : ℕ := 0x30
def FB_CONFIG : ℕ := 0x40
def FB_DISPLAY : ℕ := 0x41
def FB_CONTROL : ℕ := 0x43
def MEM_FILL : ℕ := 0x44
def MEM_ADDR : ℕ := 0x70
def MEM_DATA : ℕ := 0x71
def ID : ℕ := 0x7F

def FB_CONFIG_Z_BASE_SHIFT : ℕ := 16
def FB_CONFIG_WIDTH_LOG2_SHIFT : ℕ := 32
def FB_CONFIG_HEIGHT_LOG2_SHIFT : ℕ := 36
def FB_DISPLAY_FB_ADDR_SHIFT : ℕ := 32
def FB_DISPLAY_WIDTH_LOG2_SHIFT : ℕ := 48
def MEM_FILL_VALUE_SHIFT : ℕ := 16
def MEM_FILL_COUNT_SHIFT : ℕ := 32

def FB_A_ADDR : ℕ := 0x000000
def FB_B_ADDR : ℕ := 0x080000
def ZBUFFER_ADDR : ℕ := 0x100000
def FB_A_BASE_512 : ℕ := FB_A_ADDR >>> 9
def FB_B_BASE_512 : ℕ := FB_B_ADDR >>> 9
def ZBUFFER_BASE_512 : ℕ := ZBUFFER_ADDR >>> 9

def EXPECTED_DEVICE_ID : ℕ := 0x6702
def SCREEN_WIDTH : ℕ := 640
def SCREEN_HEIGHT : ℕ := 480

end registers

/-! ## SPI transport trace model (pico-gs-hal `SpiTransport`)

A transport implementation is abstracted by what it returns: `rdVal n a`
is the value a read of register `a` returns when issued as the `n`-th bus
operation, and `failAt n` says whether the `n`-th bus operation fails
with a transport error.  Every issued operation (the failing one
included) is recorded in an event trace. -/

/-- One SPI bus operation as it appears on the wire. -/
inductive SpiEvent where
  | rd (addr : ℕ)
  | wr (addr : ℕ) (data : ℕ)
deriving DecidableEq

/-- Abstract behaviour of an `SpiTransport` implementation. -/
structure SpiModel (ε : Type) where
  rdVal : ℕ → ℕ → ℕ
  failAt : ℕ → Option ε

/-- Transport-side state: number of bus operations issued so far and the
trace of issued operations. -/
structure SpiState where
  count : ℕ
  trace : List SpiEvent
deriving DecidableEq

/-- The state before any bus operation. -/
def SpiState.start : SpiState := ⟨0, []⟩

/-- `SpiTransport::write_register`. -/
def writeReg {ε : Type} (m : SpiModel ε) (s : SpiState) (addr data : ℕ) :
    Except ε Unit × SpiState :=
  let s2 : SpiState := ⟨s.count + 1, s.trace ++ [SpiEvent.wr addr data]⟩
  match m.failAt s.count with
  | some e => (Except.error e, s2)
  | none => (Except.ok (), s2)

/-- `SpiTransport::read_register`. -/
def readReg {ε : Type} (m : SpiModel ε) (s : SpiState) (addr : ℕ) :
    Except ε ℕ × SpiState :=
  let s2 : SpiState := ⟨s.count + 1, s.trace ++ [SpiEvent.rd addr]⟩
  match m.failAt s.count with
  | some e => (Except.error e, s2)
  | none => (Except.ok (m.rdVal s.count addr), s2)

/-! ## GPU driver (src/crates/pico-gs-core/src/gpu/driver.rs) -/

/-- `GpuError` (driver.rs:14-19). -/
inductive GpuError (ε : Type) where
  | GpuNotDetected
  | Transport (e : ε)
deriving DecidableEq

/-- Driver-owned state: current draw and display framebuffer
configurations `(color_base, z_base, width_log2, height_log2)`
(driver.rs:133-139). -/
structure GpuDriver where
  draw_fb : ℕ × ℕ × ℕ × ℕ
  display_fb : ℕ × ℕ × ℕ × ℕ
deriving DecidableEq

/-- `pack_fb_config` (driver.rs:145-150). -/
def pack_fb_config (color_base z_base width_log2 height_log2 : ℕ) : ℕ :=
  color_base
    ||| (z_base <<< registers.FB_CONFIG_Z_BASE_SHIFT)
    ||| (width_log2 <<< registers.FB_CONFIG_WIDTH_LOG2_SHIFT)
    ||| (height_log2 <<< registers.FB_CONFIG_HEIGHT_LOG2_SHIFT)

/-- `pack_fb_display` (driver.rs:156-159). -/
def pack_fb_display (fb_addr width_log2 : ℕ) : ℕ :=
  (fb_addr <<< registers.FB_DISPLAY_FB_ADDR_SHIFT)
    ||| (width_log2 <<< registers.FB_DISPLAY_WIDTH_LOG2_SHIFT)

/-- `GpuDriver::write` (driver.rs:238-241): transport errors are wrapped
into `GpuError::Transport` by the `From` impl behind `?`. -/
def GpuDriver.write {ε : Type} (m : SpiModel ε) (s : SpiState) (addr data : ℕ) :
    Except (GpuError ε) Unit × SpiState :=
  match writeReg m s addr data with
  | (Except.error e, s2) => (Except.error (GpuError.Transport e), s2)
  | (Except.ok _, s2) => (Except.ok (), s2)

/-- `GpuDriver::read` (driver.rs:256-259). -/
def GpuDriver.read {ε : Type} (m : SpiModel ε) (s : SpiState) (addr : ℕ) :
    Except (GpuError ε) ℕ × SpiState :=
  match readReg m s addr with
  | (Except.error e, s2) => (Except.error (GpuError.Transport e), s2)
  | (Except.ok v, s2) => (Except.ok v, s2)

/-- `GpuDriver::new` (driver.rs:194-226): read the ID register, verify the
device id in the low 16 bits, then write FB_CONFIG for the initial draw
target and FB_DISPLAY for the initial display target. -/
def GpuDriver.new {ε : Type} (m : SpiModel ε) :
    Except (GpuError ε) GpuDriver × SpiState :=
  let driver : GpuDriver :=
    ⟨(registers.FB_A_BASE_512, registers.ZBUFFER_BASE_512, 9, 9),
     (registers.FB_B_BASE_512, 0, 9, 9)⟩
  match GpuDriver.read m SpiState.start registers.ID with
  | (Except.error e, s1) => (Except.error e, s1)
  | (Except.ok idv, s1) =>
    let device_id := idv &&& 0xFFFF
    if device_id ≠ registers.EXPECTED_DEVICE_ID then
      (Except.error GpuError.GpuNotDetected, s1)
    else
      match GpuDriver.write m s1 registers.FB_CONFIG
          (pack_fb_config driver.draw_fb.1 driver.draw_fb.2.1
            driver.draw_fb.2.2.1 driver.draw_fb.2.2.2) with
      | (Except.error e, s2) => (Except.error e, s2)
      | (Except.ok _, s2) =>
        match GpuDriver.write m s2 registers.FB_DISPLAY
            (pack_fb_display driver.display_fb.1 driver.display_fb.2.2.1) with
        | (Except.error e, s3) => (Except.error e, s3)
        | (Except.ok _, s3) => (Except.ok driver, s3)

/-- Number of register writes to address `addr` in a trace. -/
def countWritesTo (addr : ℕ) (tr : List SpiEvent) : ℕ :=
  tr.countP fun ev =>
    match ev with
    | SpiEvent.wr a _ => a == addr
    | SpiEvent.rd _ => false

/-- C1: `GpuDriver::new` first reads the ID register.  If the low 16 bits
of the returned value differ from the expected device constant it fails
with `GpuNotDetected` having issued zero FB_CONFIG and zero FB_DISPLAY
writes; if they match (and the transport writes succeed) it issues
exactly one FB_CONFIG and exactly one FB_DISPLAY write before returning,
and the programmed initial color-buffer addresses are distinct
(draw = framebuffer A, display = framebuffer B). -/
theorem gpu_driver_new_spec {ε : Type} (m : SpiModel ε)
    (h0 : m.failAt 0 = none) :
    ((GpuDriver.new m).2.trace.head? = some (SpiEvent.rd registers.ID))
    ∧ (m.rdVal 0 registers.ID &&& 0xFFFF ≠ registers.EXPECTED_DEVICE_ID →
        (GpuDriver.new m).1 = Except.error GpuError.GpuNotDetected
        ∧ countWritesTo registers.FB_CONFIG (GpuDriver.new m).2.trace = 0
        ∧ countWritesTo registers.FB_DISPLAY (GpuDriver.new m).2.trace = 0)
    ∧ (m.rdVal 0 registers.ID &&& 0xFFFF = registers.EXPECTED_DEVICE_ID →
        m.failAt 1 = none → m.failAt 2 = none →
        (GpuDriver.new m).1 = Except.ok
            ⟨(registers.FB_A_BASE_512, registers.ZBUFFER_BASE_512, 9, 9),
             (registers.FB_B_BASE_512, 0, 9, 9)⟩
        ∧ (GpuDriver.new m).2.trace =
            [SpiEvent.rd registers.ID,
             SpiEvent.wr registers.FB_CONFIG
               (pack_fb_config registers.FB_A_BASE_512 registers.ZBUFFER_BASE_512 9 9),
             SpiEvent.wr registers.FB_DISPLAY
               (pack_fb_display registers.FB_B_BASE_512 9)]
        ∧ countWritesTo registers.FB_CONFIG (GpuDriver.new m).2.trace = 1
        ∧ countWritesTo registers.FB_DISPLAY (GpuDriver.new m).2.trace = 1
        ∧ pack_fb_config registers.FB_A_BASE_512 registers.ZBUFFER_BASE_512 9 9 &&& 0xFFFF ≠
            (pack_fb_display registers.FB_B_BASE_512 9 >>> 32) &&& 0xFFFF) := by
  refine ⟨?_, ?_, ?_⟩
  · by_cases hid : m.rdVal 0 registers.ID &&& 0xFFFF ≠ registers.EXPECTED_DEVICE_ID
    · simp [GpuDriver.new, GpuDriver.read, readReg, h0, hid, SpiState.start]
    · cases h1 : m.failAt 1 with
      | some e =>
        simp [GpuDriver.new, GpuDriver.read, GpuDriver.write, readReg, writeReg,
          h0, hid, h1, SpiState.start]
      | none =>
        cases h2 : m.failAt 2 with
        | some e =>
          simp [GpuDriver.new, GpuDriver.read, GpuDriver.write, readReg, writeReg,
            h0, hid, h1, h2, SpiState.start]
        | none =>
          simp [GpuDriver.new, GpuDriver.read, GpuDriver.write, readReg, writeReg,
            h0, hid, h1, h2, SpiState.start]
  · intro hne
    have hred : GpuDriver.new m =
        (Except.error GpuError.GpuNotDetected, ⟨1, [SpiEvent.rd registers.ID]⟩) := by
      simp [GpuDriver.new, GpuDriver.read, readReg, h0, hne, SpiState.start]
    rw [hred]
    exact ⟨rfl, rfl, rfl⟩
  · intro heq h1 h2
    have hred : GpuDriver.new m =
        (Except.ok ⟨(registers.FB_A_BASE_512, registers.ZBUFFER_BASE_512, 9, 9),
                    (registers.FB_B_BASE_512, 0, 9, 9)⟩,
         ⟨3, [SpiEvent.rd registers.ID,
              SpiEvent.wr registers.FB_CONFIG
                (pack_fb_config registers.FB_A_BASE_512 registers.ZBUFFER_BASE_512 9 9),
              SpiEvent.wr registers.FB_DISPLAY
                (pack_fb_display registers.FB_B_BASE_512 9)]⟩) := by
      simp [GpuDriver.new, GpuDriver.read, GpuDriver.write, readReg, writeReg,
        h0, heq, h1, h2, SpiState.start]
    rw [hred]
    exact ⟨rfl, rfl, rfl, rfl, by decide⟩

/-- Witness for `gpu_driver_new_spec`: a concrete transport that returns
the expected device id and never fails, and one that returns id 0. -/
theorem gpu_driver_new_spec_witness :
    ((GpuDriver.new (ε := Unit) ⟨fun _ _ => 0x0A006702, fun _ => none⟩).1 =
        Except.ok ⟨(registers.FB_A_BASE_512, registers.ZBUFFER_BASE_512, 9, 9),
                   (registers.FB_B_BASE_512, 0, 9, 9)⟩)
    ∧ ((GpuDriver.new (ε := Unit) ⟨fun _ _ => 0, fun _ => none⟩).1 =
        Except.error GpuError.GpuNotDetected) :=
  ⟨((gpu_driver_new_spec ⟨fun _ _ => 0x0A006702, fun _ => none⟩ rfl).2.2
      (by decide) rfl rfl).1,
   ((gpu_driver_new_spec ⟨fun _ _ => 0, fun _ => none⟩ rfl).2.1 (by decide)).1⟩

/-! ## Packed vertices (src/crates/pico-gs-core/src/gpu/vertex.rs) -/

/-- `GpuVertex` (vertex.rs:8-22): pre-packed COLOR / UV0_UV1 / VERTEX
register values. -/
structure GpuVertex where
  color_packed : ℕ
  uv_packed : ℕ
  position_packed : ℕ
deriving DecidableEq

/-- `pack_color` (vertex.rs:57-59). -/
def pack_color (r g b a : ℕ) : ℕ :=
  (a <<< 24) ||| (b <<< 16) ||| (g <<< 8) ||| r

/-- `pack_position` (vertex.rs:72-77). -/
def pack_position (x y z : ℚ) : ℕ :=
  let x_fixed := f32_to_12_4 x
  let y_fixed := f32_to_12_4 y
  let z_fixed := f32_to_z25 z
  (z_fixed <<< 32) ||| ((y_fixed &&& 0xFFFF) <<< 16) ||| (x_fixed &&& 0xFFFF)

/-- `GpuVertex::from_color_position` (vertex.rs:26-32). -/
def GpuVertex.from_color_position (r g b a : ℕ) (x y z : ℚ) : GpuVertex :=
  ⟨pack_color r g b a, 0, pack_position x y z⟩

/-! ## Triangle submission (driver.rs:321-347) -/

/-- Issue a sequence of register writes, stopping at the first transport
failure (the semantics of consecutive `self.write(..)?` statements). -/
def writeSeq {ε : Type} (m : SpiModel ε) (s : SpiState) :
    List (ℕ × ℕ) → Except (GpuError ε) Unit × SpiState
  | [] => (Except.ok (), s)
  | (addr, data) :: rest =>
    match GpuDriver.write m s addr data with
    | (Except.error e, s2) => (Except.error e, s2)
    | (Except.ok _, s2) => writeSeq m s2 rest

/-- The three register writes `submit_triangle` issues for one vertex:
COLOR, then UV0_UV1 when textured, then the given VERTEX register. -/
def vertexWrites (v : GpuVertex) (vreg : ℕ) (textured : Bool) : List (ℕ × ℕ) :=
  [(registers.COLOR, v.color_packed)]
    ++ (if textured then [(registers.UV0_UV1, v.uv_packed)] else [])
    ++ [(vreg, v.position_packed)]

/-- `GpuDriver::submit_triangle` (driver.rs:321-347): the straight-line
sequence of `self.write(..)?` calls, v0 and v1 through VERTEX_NOKICK and
v2 through VERTEX_KICK_012. -/
def GpuDriver.submit_triangle {ε : Type} (m : SpiModel ε) (s : SpiState)
    (v0 v1 v2 : GpuVertex) (textured : Bool) :
    Except (GpuError ε) Unit × SpiState :=
  writeSeq m s
    (vertexWrites v0 registers.VERTEX_NOKICK textured
      ++ vertexWrites v1 registers.VERTEX_NOKICK textured
      ++ vertexWrites v2 registers.VERTEX_KICK_012 textured)

/-- The wire event for one register write. -/
def wrEvent (p : ℕ × ℕ) : SpiEvent := SpiEvent.wr p.1 p.2

lemma writeSeq_ok {ε : Type} (m : SpiModel ε) :
    ∀ (ws : List (ℕ × ℕ)) (s : SpiState),
      (∀ j, j < ws.length → m.failAt (s.count + j) = none) →
      writeSeq m s ws = (Except.ok (),
        ⟨s.count + ws.length, s.trace ++ ws.map wrEvent⟩) := by
  intro ws
  induction ws with
  | nil => intro s _; simp [writeSeq]
  | cons p rest ih =>
    intro s hok
    have h0 : m.failAt s.count = none := by
      have := hok 0 (by simp)
      simpa using this
    obtain ⟨addr, data⟩ := p
    have hrest := ih ⟨s.count + 1, s.trace ++ [SpiEvent.wr addr data]⟩
      (by
        intro j hj
        have := hok (j + 1) (by simpa using Nat.succ_lt_succ hj)
        simpa [Nat.add_assoc, Nat.add_comm 1 j] using this)
    simp only [writeSeq, GpuDriver.write, writeReg, h0] at hrest ⊢
    rw [hrest]
    simp [wrEvent, Nat.add_assoc, Nat.add_comm 1 rest.length]

lemma writeSeq_fail {ε : Type} (m : SpiModel ε) :
    ∀ (ws : List (ℕ × ℕ)) (s : SpiState) (k : ℕ) (e : ε),
      k < ws.length →
      (∀ j, j < k → m.failAt (s.count + j) = none) →
      m.failAt (s.count + k) = some e →
      writeSeq m s ws = (Except.error (GpuError.Transport e),
        ⟨s.count + k + 1, s.trace ++ (ws.take (k + 1)).map wrEvent⟩) := by
  intro ws
  induction ws with
  | nil => intro s k e hk; simp at hk
  | cons p rest ih =>
    intro s k e hk hpre hfail
    obtain ⟨addr, data⟩ := p
    cases k with
    | zero =>
      have h0 : m.failAt s.count = some e := by simpa using hfail
      simp [writeSeq, GpuDriver.write, writeReg, h0, wrEvent]
    | succ k2 =>
      have h0 : m.failAt s.count = none := by
        have := hpre 0 (Nat.succ_pos k2)
        simpa using this
      have hrest := ih ⟨s.count + 1, s.trace ++ [SpiEvent.wr addr data]⟩ k2 e
        (by simpa using Nat.lt_of_succ_lt_succ hk)
        (by
          intro j hj
          have := hpre (j + 1) (Nat.succ_lt_succ hj)
          simpa [Nat.add_assoc, Nat.add_comm 1 j] using this)
        (by simpa [Nat.add_assoc, Nat.add_comm 1 k2] using hfail)
      simp only [writeSeq, GpuDriver.write, writeReg, h0]
      rw [hrest]
      simp [wrEvent, Nat.add_assoc, Nat.add_comm 1 k2]

/-- The full wire-write sequence of `submit_triangle`, spelled out:
per vertex COLOR, then (only when textured) UV0_UV1, then a vertex
position register — VERTEX_NOKICK for v0 and v1, VERTEX_KICK_012 for
v2. -/
def triangleWriteList (v0 v1 v2 : GpuVertex) (textured : Bool) : List (ℕ × ℕ) :=
  if textured then
    [(registers.COLOR, v0.color_packed), (registers.UV0_UV1, v0.uv_packed),
     (registers.VERTEX_NOKICK, v0.position_packed),
     (registers.COLOR, v1.color_packed), (registers.UV0_UV1, v1.uv_packed),
     (registers.VERTEX_NOKICK, v1.position_packed),
     (registers.COLOR, v2.color_packed), (registers.UV0_UV1, v2.uv_packed),
     (registers.VERTEX_KICK_012, v2.position_packed)]
  else
    [(registers.COLOR, v0.color_packed), (registers.VERTEX_NOKICK, v0.position_packed),
     (registers.COLOR, v1.color_packed), (registers.VERTEX_NOKICK, v1.position_packed),
     (registers.COLOR, v2.color_packed), (registers.VERTEX_KICK_012, v2.position_packed)]

lemma submit_triangle_eq_writeSeq {ε : Type} (m : SpiModel ε) (s : SpiState)
    (v0 v1 v2 : GpuVertex) (textured : Bool) :
    GpuDriver.submit_triangle m s v0 v1 v2 textured =
      writeSeq m s (triangleWriteList v0 v1 v2 textured) := by
  cases textured <;>
    simp [GpuDriver.submit_triangle, vertexWrites, triangleWriteList]

/-- C2: `submit_triangle` writes, per vertex in order, COLOR, then (only
when textured) UV0_UV1, then a vertex position register; v0 and v1 go
through VERTEX_NOKICK and only v2 through VERTEX_KICK_012.  If every
write succeeds the full sequence is issued; if the k-th write fails the
sequence stops right there and the transport error is propagated
verbatim. -/
theorem submit_triangle_spec {ε : Type} (m : SpiModel ε)
    (v0 v1 v2 : GpuVertex) (textured : Bool) :
    ((∀ j, j < (triangleWriteList v0 v1 v2 textured).length → m.failAt j = none) →
      GpuDriver.submit_triangle m SpiState.start v0 v1 v2 textured =
        (Except.ok (), ⟨(triangleWriteList v0 v1 v2 textured).length,
          (triangleWriteList v0 v1 v2 textured).map wrEvent⟩))
    ∧ (∀ k e, k < (triangleWriteList v0 v1 v2 textured).length →
        (∀ j, j < k → m.failAt j = none) →
        m.failAt k = some e →
        GpuDriver.submit_triangle m SpiState.start v0 v1 v2 textured =
          (Except.error (GpuError.Transport e),
            ⟨k + 1, ((triangleWriteList v0 v1 v2 textured).take (k + 1)).map wrEvent⟩)) := by
  constructor
  · intro hok
    rw [submit_triangle_eq_writeSeq]
    simpa [SpiState.start] using writeSeq_ok m (triangleWriteList v0 v1 v2 textured)
      SpiState.start (by simpa [SpiState.start] using hok)
  · intro k e hk hpre hfail
    rw [submit_triangle_eq_writeSeq]
    simpa [SpiState.start] using writeSeq_fail m (triangleWriteList v0 v1 v2 textured)
      SpiState.start k e hk (by simpa [SpiState.start] using hpre)
      (by simpa [SpiState.start] using hfail)

/-- Witness for `submit_triangle_spec`: a never-failing transport issues
all nine writes of a textured triangle in order; a transport whose third
bus operation fails stops after that operation with the error. -/
theorem submit_triangle_spec_witness :
    (GpuDriver.submit_triangle (ε := Unit) ⟨fun _ _ => 0, fun _ => none⟩
        SpiState.start ⟨1, 2, 3⟩ ⟨4, 5, 6⟩ ⟨7, 8, 9⟩ true =
      (Except.ok (), ⟨9,
        [SpiEvent.wr registers.COLOR 1, SpiEvent.wr registers.UV0_UV1 2,
         SpiEvent.wr registers.VERTEX_NOKICK 3,
         SpiEvent.wr registers.COLOR 4, SpiEvent.wr registers.UV0_UV1 5,
         SpiEvent.wr registers.VERTEX_NOKICK 6,
         SpiEvent.wr registers.COLOR 7, SpiEvent.wr registers.UV0_UV1 8,
         SpiEvent.wr registers.VERTEX_KICK_012 9]⟩))
    ∧ (GpuDriver.submit_triangle (ε := Unit)
        ⟨fun _ _ => 0, fun n => if 2 ≤ n then some () else none⟩
        SpiState.start ⟨1, 2, 3⟩ ⟨4, 5, 6⟩ ⟨7, 8, 9⟩ true =
      (Except.error (GpuError.Transport ()),
        ⟨3, [SpiEvent.wr registers.COLOR 1, SpiEvent.wr registers.UV0_UV1 2,
             SpiEvent.wr registers.VERTEX_NOKICK 3]⟩)) := by
  constructor
  · exact (submit_triangle_spec ⟨fun _ _ => 0, fun _ => none⟩
      ⟨1, 2, 3⟩ ⟨4, 5, 6⟩ ⟨7, 8, 9⟩ true).1 (fun j hj => rfl)
  · exact (submit_triangle_spec ⟨fun _ _ => 0, fun n => if 2 ≤ n then some () else none⟩
      ⟨1, 2, 3⟩ ⟨4, 5, 6⟩ ⟨7, 8, 9⟩ true).2 2 ()
      (by decide)
      (fun j hj => by
        show (if 2 ≤ j then (some () : Option Unit) else none) = none
        rw [if_neg (by omega)])
      (by rfl)

lemma masked_testBit_high (w i : ℕ) (h : 16 ≤ i) : (w &&& 65535).testBit i = false := by
  have hlt : w &&& 65535 < 2 ^ i :=
    lt_of_le_of_lt Nat.and_le_right
      (lt_of_lt_of_le (by norm_num : (65535 : ℕ) < 2 ^ 16)
        (Nat.pow_le_pow_right (by norm_num) h))
  exact Nat.testBit_lt_two_pow hlt

lemma pack_position_shr48 (x y z : ℚ) :
    pack_position x y z >>> 48 = f32_to_z25 z >>> 16 := by
  apply Nat.eq_of_testBit_eq
  intro i
  rw [Nat.testBit_shiftRight, Nat.testBit_shiftRight]
  unfold pack_position
  simp only [Nat.testBit_lor, Nat.testBit_shiftLeft]
  rw [masked_testBit_high (f32_to_12_4 x) (48 + i) (by omega)]
  rw [masked_testBit_high (f32_to_12_4 y) (48 + i - 16) (by omega)]
  have h1 : 48 + i - 32 = 16 + i := by omega
  have h2 : 32 ≤ 48 + i := by omega
  simp [h1, h2]

/-- C10 (implicit): `pack_position` shifts the full 25-bit depth code to
bit 32 of the position word, so the depth bits above bit 15 land in the
field `[63:48]` documented as Q = 1/W: the top 16 bits of the packed word
equal `f32_to_z25 z >>> 16` and are nonzero whenever the depth code is at
least `2^16`; `GpuVertex::from_color_position` stores exactly
`pack_position x y z` (no reciprocal-W input exists), so the Z and Q
fields are not independent. -/
theorem pack_position_depth_overlap (x y z : ℚ) (r g b a : ℕ) :
    (GpuVertex.from_color_position r g b a x y z).position_packed = pack_position x y z
    ∧ pack_position x y z >>> 48 = f32_to_z25 z >>> 16
    ∧ (2 ^ 16 ≤ f32_to_z25 z → pack_position x y z >>> 48 ≠ 0) := by
  refine ⟨rfl, pack_position_shr48 x y z, ?_⟩
  intro hz
  rw [pack_position_shr48, Nat.shiftRight_eq_div_pow]
  have h1 : 1 ≤ f32_to_z25 z / 2 ^ 16 := (Nat.one_le_div_iff (by norm_num)).mpr hz
  omega

/-- Witness for `pack_position_depth_overlap`: at depth `z = 1.0` (code
`0x1FFFFFF ≥ 2^16`) the packed position word has a nonzero [63:48]
field. -/
theorem pack_position_depth_overlap_witness : pack_position 0 0 1 >>> 48 ≠ 0 :=
  (pack_position_depth_overlap 0 0 1 0 0 0 0).2.2
    (by rw [f32_to_z25_of_max_le (le_refl (1 : ℚ))]; norm_num)

/-! ## Hardware memory fill and framebuffer clear -/

/-- `GpuDriver::gpu_mem_fill` (driver.rs:522-532): one MEM_FILL register
write packing base, 16-bit fill value and word count. -/
def GpuDriver.gpu_mem_fill {ε : Type} (m : SpiModel ε) (s : SpiState)
    (base value count : ℕ) : Except (GpuError ε) Unit × SpiState :=
  GpuDriver.write m s registers.MEM_FILL
    (base ||| (value <<< registers.MEM_FILL_VALUE_SHIFT)
          ||| (count <<< registers.MEM_FILL_COUNT_SHIFT))

/-- `ClearCommand` as consumed by the hardware-fill clear path (fields per
the driver tests: fill color, clear-depth flag, 16-bit depth fill
value). -/
structure ClearCommand where
  color : ℕ × ℕ × ℕ × ℕ
  clear_depth : Bool
  depth_value : ℕ
deriving DecidableEq

/-- Modelled from the spec: the hardware-fill path of the command
executor's `execute_clear`.  The `execute_clear` present under `src/`
(`pico-gs-core/src/render/commands.rs:57-104`) is a stale triangle-path
revision referencing registers (TRI_MODE, FB_ZBUFFER, TEX0_BASE, ...)
that no longer exist in `gpu/registers.rs`; the current hardware-fill
path is specified by spec §4.5 ("either two full-viewport triangles or
two hardware-fill calls (color, with format conversion if needed, and
optionally depth)"), §8 ("depth+color clear issues exactly two fill
operations and zero RENDER_MODE writes on the hardware-fill path;
color-only clear issues exactly one") and exercised by the repository
tests `execute_clear_uses_mem_fill` / `execute_clear_color_only`:
one `gpu_mem_fill` of the draw color buffer with the RGB565-converted
clear color, then, when depth clearing is requested, one `gpu_mem_fill`
of the Z-buffer with the depth fill value. -/
def execute_clear {ε : Type} (m : SpiModel ε) (s : SpiState) (d : GpuDriver)
    (cmd : ClearCommand) : Except (GpuError ε) Unit × SpiState :=
  let rgb565 := ((cmd.color.1 >>> 3) <<< 11)
    ||| ((cmd.color.2.1 >>> 2) <<< 5) ||| (cmd.color.2.2.1 >>> 3)
  let pixels := registers.SCREEN_WIDTH * registers.SCREEN_HEIGHT
  match GpuDriver.gpu_mem_fill m s d.draw_fb.1 rgb565 pixels with
  | (Except.error e, s1) => (Except.error e, s1)
  | (Except.ok _, s1) =>
    if cmd.clear_depth then
      GpuDriver.gpu_mem_fill m s1 d.draw_fb.2.1 cmd.depth_value pixels
    else
      (Except.ok (), s1)

/-- C8: on the hardware-fill clear path, a depth-plus-color clear issues
exactly two fill operations (MEM_FILL writes) and zero RENDER_MODE
writes, and a color-only clear issues exactly one fill operation (and
also zero RENDER_MODE writes). -/
theorem execute_clear_fill_counts {ε : Type} (m : SpiModel ε) (d : GpuDriver)
    (cmd : ClearCommand) (h0 : m.failAt 0 = none) (h1 : m.failAt 1 = none) :
    (cmd.clear_depth = true →
      countWritesTo registers.MEM_FILL (execute_clear m SpiState.start d cmd).2.trace = 2
      ∧ countWritesTo registers.RENDER_MODE (execute_clear m SpiState.start d cmd).2.trace = 0)
    ∧ (cmd.clear_depth = false →
      countWritesTo registers.MEM_FILL (execute_clear m SpiState.start d cmd).2.trace = 1
      ∧ countWritesTo registers.RENDER_MODE (execute_clear m SpiState.start d cmd).2.trace = 0) := by
  constructor
  · intro hd
    simp [execute_clear, GpuDriver.gpu_mem_fill, GpuDriver.write, writeReg,
      h0, h1, hd, SpiState.start, countWritesTo, registers.MEM_FILL,
      registers.RENDER_MODE]
  · intro hd
    simp [execute_clear, GpuDriver.gpu_mem_fill, GpuDriver.write, writeReg,
      h0, h1, hd, SpiState.start, countWritesTo, registers.MEM_FILL,
      registers.RENDER_MODE]

/-- Witness for `execute_clear_fill_counts`: a black depth-clearing clear
on a never-failing transport produces two MEM_FILL writes; a red
color-only clear produces one. -/
theorem execute_clear_fill_counts_witness :
    (countWritesTo registers.MEM_FILL
        (execute_clear (ε := Unit) ⟨fun _ _ => 0, fun _ => none⟩ SpiState.start
          ⟨(0, 0, 9, 9), (1024, 0, 9, 9)⟩
          ⟨(0, 0, 0, 255), true, 0xFFFF⟩).2.trace = 2)
    ∧ (countWritesTo registers.MEM_FILL
        (execute_clear (ε := Unit) ⟨fun _ _ => 0, fun _ => none⟩ SpiState.start
          ⟨(0, 0, 9, 9), (1024, 0, 9, 9)⟩
          ⟨(255, 0, 0, 255), false, 0xFFFF⟩).2.trace = 1) :=
  ⟨((execute_clear_fill_counts ⟨fun _ _ => 0, fun _ => none⟩
      ⟨(0, 0, 9, 9), (1024, 0, 9, 9)⟩ ⟨(0, 0, 0, 255), true, 0xFFFF⟩
      rfl rfl).1 rfl).1,
   ((execute_clear_fill_counts ⟨fun _ _ => 0, fun _ => none⟩
      ⟨(0, 0, 9, 9), (1024, 0, 9, 9)⟩ ⟨(255, 0, 0, 255), false, 0xFFFF⟩
      rfl rfl).2 rfl).1⟩

/-! ## Inter-context command queue (src/crates/pico-gs-rp2350/src/queue.rs) -/

/-- `QUEUE_CAPACITY` (queue.rs:12). -/
def QUEUE_CAPACITY : ℕ := 64

/-- Modelled from the spec: the SPSC queue implementation behind the
`CommandQueue` alias (`heapless::spsc::Queue<RenderCommand, QUEUE_CAPACITY>`)
lives in an external crate; `src/` holds only the capacity constant and
the producer/consumer type aliases.  Spec §3/§4.4: fixed capacity N,
occupied count always in `[0, N]`, strict FIFO; enqueue returns the
rejected value when full; dequeue reports empty when empty; neither
blocks internally (both are total functions of the queue state). -/
structure CommandQueue (α : Type) where
  items : List α
deriving DecidableEq

/-- The freshly constructed, empty queue. -/
def CommandQueue.empty (α : Type) : CommandQueue α := ⟨[]⟩

/-- Producer-side `enqueue`: rejects (returning the value) when full. -/
def CommandQueue.enqueue {α : Type} (q : CommandQueue α) (a : α) :
    Except α (CommandQueue α) :=
  if q.items.length = QUEUE_CAPACITY then Except.error a
  else Except.ok ⟨q.items ++ [a]⟩

/-- Consumer-side `dequeue`: reports empty via `none`. -/
def CommandQueue.dequeue {α : Type} (q : CommandQueue α) :
    Option (α × CommandQueue α) :=
  match q.items with
  | [] => none
  | x :: rest => some (x, ⟨rest⟩)

/-- Enqueue a list of values in order, stopping at the first rejection. -/
def CommandQueue.enqueueAll {α : Type} (q : CommandQueue α) :
    List α → Except α (CommandQueue α)
  | [] => Except.ok q
  | x :: xs =>
    match q.enqueue x with
    | Except.error e => Except.error e
    | Except.ok q2 => q2.enqueueAll xs

/-- Dequeue `n` times, collecting the returned values in order. -/
def CommandQueue.dequeueN {α : Type} : ℕ → CommandQueue α → List α × CommandQueue α
  | 0, q => ([], q)
  | n + 1, q =>
    match q.dequeue with
    | none => ([], q)
    | some (x, q2) =>
      let p := CommandQueue.dequeueN n q2
      (x :: p.1, p.2)

lemma enqueueAll_ok {α : Type} :
    ∀ (xs : List α) (q : CommandQueue α),
      q.items.length + xs.length ≤ QUEUE_CAPACITY →
      q.enqueueAll xs = Except.ok ⟨q.items ++ xs⟩ := by
  intro xs
  induction xs with
  | nil => intro q _; simp [CommandQueue.enqueueAll]
  | cons x rest ih =>
    intro q hle
    have hne : q.items.length ≠ QUEUE_CAPACITY := by
      simp only [List.length_cons] at hle
      omega
    have := ih ⟨q.items ++ [x]⟩ (by simp at hle ⊢; omega)
    simp [CommandQueue.enqueueAll, CommandQueue.enqueue, hne, this]

lemma dequeueN_prefix {α : Type} :
    ∀ (xs rest : List α),
      CommandQueue.dequeueN xs.length ⟨xs ++ rest⟩ = (xs, ⟨rest⟩) := by
  intro xs
  induction xs with
  | nil => intro rest; simp [CommandQueue.dequeueN]
  | cons x xs2 ih =>
    intro rest
    simp [CommandQueue.dequeueN, CommandQueue.dequeue, ih rest]

/-- C3: starting from the empty queue of capacity `QUEUE_CAPACITY = 64`,
64 enqueues all succeed, the following 64 dequeues return exactly the
enqueued values in enqueue order, and the 65-th dequeue on the
otherwise-idle queue reports empty; an enqueue on a full queue never
succeeds and returns the rejected value, and a dequeue on an empty queue
never succeeds. -/
theorem command_queue_fifo {α : Type} (xs : List α)
    (hlen : xs.length = QUEUE_CAPACITY) :
    ((CommandQueue.empty α).enqueueAll xs = Except.ok ⟨xs⟩)
    ∧ CommandQueue.dequeueN QUEUE_CAPACITY ⟨xs⟩ = (xs, CommandQueue.empty α)
    ∧ (CommandQueue.dequeueN QUEUE_CAPACITY ⟨xs⟩).2.dequeue = none
    ∧ (∀ (q : CommandQueue α) (a : α), q.items.length = QUEUE_CAPACITY →
        q.enqueue a = Except.error a)
    ∧ (∀ q : CommandQueue α, q.items = [] → q.dequeue = none) := by
  refine ⟨?_, ?_, ?_, ?_, ?_⟩
  · exact enqueueAll_ok xs (CommandQueue.empty α) (by simp [CommandQueue.empty, hlen])
  · have := dequeueN_prefix xs ([] : List α)
    rw [← hlen]
    simpa [CommandQueue.empty] using this
  · have h2 : CommandQueue.dequeueN QUEUE_CAPACITY ⟨xs⟩ = (xs, CommandQueue.empty α) := by
      have := dequeueN_prefix xs ([] : List α)
      rw [← hlen]
      simpa [CommandQueue.empty] using this
    rw [h2]
    rfl
  · intro q a hfull
    simp [CommandQueue.enqueue, hfull]
  · intro q hq
    simp [CommandQueue.dequeue, hq]

/-- Witness for `command_queue_fifo`: the 64 values `0..63`. -/
theorem command_queue_fifo_witness :
    ((CommandQueue.empty ℕ).enqueueAll (List.range 64) =
      Except.ok ⟨List.range 64⟩)
    ∧ CommandQueue.dequeueN QUEUE_CAPACITY ⟨List.range 64⟩ =
        (List.range 64, CommandQueue.empty ℕ)
    ∧ (CommandQueue.dequeueN QUEUE_CAPACITY ⟨List.range 64⟩).2.dequeue = none
    ∧ (CommandQueue.mk (List.range 64)).enqueue 99 = Except.error 99 :=
  ⟨(command_queue_fifo (List.range 64) (by decide)).1,
   (command_queue_fifo (List.range 64) (by decide)).2.1,
   (command_queue_fifo (List.range 64) (by decide)).2.2.1,
   (command_queue_fifo (List.range 64) (by decide)).2.2.2.1
     ⟨List.range 64⟩ 99 (by decide)⟩

/-! ## Transform pipeline (src/firmware/src/render/transform.rs) -/

/-- glam `Vec3` over exact rationals. -/
structure Vec3 where
  x : ℚ
  y : ℚ
  z : ℚ
deriving DecidableEq

/-- glam `Vec4` over exact rationals. -/
structure Vec4 where
  x : ℚ
  y : ℚ
  z : ℚ
  w : ℚ
deriving DecidableEq

/-- glam `Mat4`: four column vectors. -/
structure Mat4 where
  x_axis : Vec4
  y_axis : Vec4
  z_axis : Vec4
  w_axis : Vec4
deriving DecidableEq

/-- glam `Mat4 * Vec4`: linear combination of the columns. -/
def Mat4.mulVec4 (m : Mat4) (v : Vec4) : Vec4 :=
  ⟨m.x_axis.x * v.x + m.y_axis.x * v.y + m.z_axis.x * v.z + m.w_axis.x * v.w,
   m.x_axis.y * v.x + m.y_axis.y * v.y + m.z_axis.y * v.z + m.w_axis.y * v.w,
   m.x_axis.z * v.x + m.y_axis.z * v.y + m.z_axis.z * v.z + m.w_axis.z * v.w,
   m.x_axis.w * v.x + m.y_axis.w * v.y + m.z_axis.w * v.z + m.w_axis.w * v.w⟩

/-- glam `Mat4::IDENTITY`. -/
def Mat4.identity : Mat4 :=
  ⟨⟨1, 0, 0, 0⟩, ⟨0, 1, 0, 0⟩, ⟨0, 0, 1, 0⟩, ⟨0, 0, 0, 1⟩⟩

/-- `ScreenVertex` (transform.rs:9-14). -/
structure ScreenVertex where
  x : ℚ
  y : ℚ
  z : ℚ
  w : ℚ
deriving DecidableEq

/-- `transform_vertex` (transform.rs:23-52): MVP multiply, perspective
divide (substituting `inv_w = 1` unless `|w| > 1e-6`), viewport mapping
with Y flip, and Z mapped from NDC `[-1, 1]` to clamped `[0, 1]`.
(The `f32` literal `1e-6` denotes the nearest float, which is slightly
below the decimal `1e-6`; no `f32` value lies strictly between them, so
comparing against the exact decimal agrees with the source for every
representable `w`.) -/
def transform_vertex (position : Vec3) (mvp : Mat4) : ScreenVertex :=
  let clip := mvp.mulVec4 ⟨position.x, position.y, position.z, 1⟩
  let w := clip.w
  let inv_w := if |w| > 0.000001 then 1 / w else 1
  let ndc_x := clip.x * inv_w
  let ndc_y := clip.y * inv_w
  let ndc_z := clip.z * inv_w
  let screen_w : ℚ := registers.SCREEN_WIDTH
  let screen_h : ℚ := registers.SCREEN_HEIGHT
  let sx := (ndc_x + 1) * 0.5 * (screen_w - 1)
  let sy := (1 - ndc_y) * 0.5 * (screen_h - 1)
  let sz := (ndc_z + 1) * 0.5
  ⟨sx, sy, rclamp sz 0 1, w⟩

/-- `is_front_facing` (transform.rs:66-74): sign test of the 2-D
screen-space edge cross product. -/
def is_front_facing (v0 v1 v2 : ScreenVertex) : Bool :=
  let e1x := v1.x - v0.x
  let e1y := v1.y - v0.y
  let e2x := v2.x - v0.x
  let e2y := v2.y - v0.y
  let cross := e1x * e2y - e1y * e2x
  cross > 0

/-- C4 (code bug): `is_front_facing` does return `cross > 0`, but on the
spec's CCW test triangle `(320,100), (200,400), (440,400)` the cross
product is `-72000`, so the code reports it back-facing and reports the
reversed ordering front-facing — contradicting the claim, spec §8 and
the repository's own tests `ccw_triangle_is_front_facing` /
`cw_triangle_is_back_facing` (after the viewport Y flip, screen space is
Y-down, which reverses the orientation the sign test assumes). -/
theorem is_front_facing_failing_input :
    (∀ v0 v1 v2 : ScreenVertex,
      is_front_facing v0 v1 v2 = true ↔
        0 < (v1.x - v0.x) * (v2.y - v0.y) - (v1.y - v0.y) * (v2.x - v0.x))
    ∧ is_front_facing ⟨320, 100, 0.5, 1⟩ ⟨200, 400, 0.5, 1⟩ ⟨440, 400, 0.5, 1⟩ = false
    ∧ is_front_facing ⟨320, 100, 0.5, 1⟩ ⟨440, 400, 0.5, 1⟩ ⟨200, 400, 0.5, 1⟩ = true
    ∧ is_front_facing ⟨100, 100, 0.5, 1⟩ ⟨200, 200, 0.5, 1⟩ ⟨300, 300, 0.5, 1⟩ = false := by
  refine ⟨?_, ?_, ?_, ?_⟩
  · intro v0 v1 v2
    simp [is_front_facing]
  · simp only [is_front_facing]
    norm_num
  · simp only [is_front_facing]
    norm_num
  · simp only [is_front_facing]
    norm_num

lemma rclamp01_nonneg (v : ℚ) : 0 ≤ rclamp v 0 1 := le_max_left 0 _

lemma rclamp01_le_one (v : ℚ) : rclamp v 0 1 ≤ 1 :=
  max_le (by norm_num) (min_le_left 1 v)

/-- C5: `transform_vertex` performs the homogeneous multiply and the
perspective divide by W (substituting W = 1 for `|W| < 1e-6`; no `f32`
equals the threshold exactly, so the two boundary conventions coincide on
representable inputs), maps NDC x/y to pixels with Y flipped, and maps
NDC z to `[0, 1]` clamped; identity MVP sends the origin to the screen
center `(319.5, 239.5)` at depth 0.5, NDC `(-1,-1)` to pixel
`(0, height-1)` and NDC `(+1,+1)` to pixel `(width-1, 0)`. -/
theorem transform_vertex_spec :
    (∀ (pos : Vec3) (mvp : Mat4),
      (|(mvp.mulVec4 ⟨pos.x, pos.y, pos.z, 1⟩).w| > 0.000001 →
        transform_vertex pos mvp =
          ⟨((mvp.mulVec4 ⟨pos.x, pos.y, pos.z, 1⟩).x /
              (mvp.mulVec4 ⟨pos.x, pos.y, pos.z, 1⟩).w + 1) * 0.5 * 639,
           (1 - (mvp.mulVec4 ⟨pos.x, pos.y, pos.z, 1⟩).y /
              (mvp.mulVec4 ⟨pos.x, pos.y, pos.z, 1⟩).w) * 0.5 * 479,
           rclamp (((mvp.mulVec4 ⟨pos.x, pos.y, pos.z, 1⟩).z /
              (mvp.mulVec4 ⟨pos.x, pos.y, pos.z, 1⟩).w + 1) * 0.5) 0 1,
           (mvp.mulVec4 ⟨pos.x, pos.y, pos.z, 1⟩).w⟩)
      ∧ (|(mvp.mulVec4 ⟨pos.x, pos.y, pos.z, 1⟩).w| < 0.000001 →
        transform_vertex pos mvp =
          ⟨((mvp.mulVec4 ⟨pos.x, pos.y, pos.z, 1⟩).x + 1) * 0.5 * 639,
           (1 - (mvp.mulVec4 ⟨pos.x, pos.y, pos.z, 1⟩).y) * 0.5 * 479,
           rclamp (((mvp.mulVec4 ⟨pos.x, pos.y, pos.z, 1⟩).z + 1) * 0.5) 0 1,
           (mvp.mulVec4 ⟨pos.x, pos.y, pos.z, 1⟩).w⟩)
      ∧ 0 ≤ (transform_vertex pos mvp).z ∧ (transform_vertex pos mvp).z ≤ 1)
    ∧ transform_vertex ⟨0, 0, 0⟩ Mat4.identity = ⟨319.5, 239.5, 0.5, 1⟩
    ∧ transform_vertex ⟨-1, -1, 0⟩ Mat4.identity = ⟨0, 479, 0.5, 1⟩
    ∧ transform_vertex ⟨1, 1, 0⟩ Mat4.identity = ⟨639, 0, 0.5, 1⟩ := by
  refine ⟨?_, ?_, ?_, ?_⟩
  · intro pos mvp
    refine ⟨?_, ?_, ?_, ?_⟩
    · intro h
      simp only [transform_vertex]
      rw [if_pos h]
      simp [mul_one_div, registers.SCREEN_WIDTH, registers.SCREEN_HEIGHT]
      norm_num [div_eq_mul_inv]
    · intro h
      simp only [transform_vertex]
      rw [if_neg (not_lt.mpr h.le)]
      simp [registers.SCREEN_WIDTH, registers.SCREEN_HEIGHT]
      norm_num
    · exact rclamp01_nonneg _
    · exact rclamp01_le_one _
  · simp only [transform_vertex, Mat4.mulVec4, Mat4.identity]
    norm_num [rclamp, min_def, max_def, registers.SCREEN_WIDTH, registers.SCREEN_HEIGHT]
  · simp only [transform_vertex, Mat4.mulVec4, Mat4.identity]
    norm_num [rclamp, min_def, max_def, registers.SCREEN_WIDTH, registers.SCREEN_HEIGHT]
  · simp only [transform_vertex, Mat4.mulVec4, Mat4.identity]
    norm_num [rclamp, min_def, max_def, registers.SCREEN_WIDTH, registers.SCREEN_HEIGHT]

/-- Witness for `transform_vertex_spec`: the divide branch at clip-space
W = 2 (a scaling MVP), and the substitute branch at W = 0. -/
theorem transform_vertex_spec_witness :
    transform_vertex ⟨2, 0, 0⟩
        ⟨⟨1, 0, 0, 0⟩, ⟨0, 1, 0, 0⟩, ⟨0, 0, 1, 0⟩, ⟨0, 0, 0, 2⟩⟩ =
      ⟨639, 239.5, 0.5, 2⟩
    ∧ transform_vertex ⟨3, 0, 0⟩
        ⟨⟨1, 0, 0, 0⟩, ⟨0, 1, 0, 0⟩, ⟨0, 0, 1, 0⟩, ⟨0, 0, 0, 0⟩⟩ =
      ⟨(3 + 1) * 0.5 * 639, 239.5, 0.5, 0⟩ := by
  constructor
  · have h := (transform_vertex_spec.1 ⟨2, 0, 0⟩
      ⟨⟨1, 0, 0, 0⟩, ⟨0, 1, 0, 0⟩, ⟨0, 0, 1, 0⟩, ⟨0, 0, 0, 2⟩⟩).1
      (by norm_num [Mat4.mulVec4])
    rw [h]
    norm_num [Mat4.mulVec4, rclamp, min_def, max_def]
  · have h := (transform_vertex_spec.1 ⟨3, 0, 0⟩
      ⟨⟨1, 0, 0, 0⟩, ⟨0, 1, 0, 0⟩, ⟨0, 0, 1, 0⟩, ⟨0, 0, 0, 0⟩⟩).2.1
      (by norm_num [Mat4.mulVec4])
    rw [h]
    norm_num [Mat4.mulVec4, rclamp, min_def, max_def]

/-! ## Lighting (src/crates/pico-gs-core/src/render/lighting.rs) -/

/-- glam `Vec3::dot`. -/
def Vec3.dot (a b : Vec3) : ℚ := a.x * b.x + a.y * b.y + a.z * b.z

/-- `DirectionalLight` (render/mod.rs:38-43). -/
structure DirectionalLight where
  direction : Vec3
  color : Vec3
deriving DecidableEq

/-- `AmbientLight` (render/mod.rs:47-49). -/
structure AmbientLight where
  color : Vec3
deriving DecidableEq

/-- `compute_lighting` (lighting.rs:13-39): start from the ambient color,
accumulate `max(0, dot(N, L)) * light_color` over the four lights in
order, multiply each channel by the base color channel, truncate
(`as u32`, saturating at 0 below) and clamp with `.min(255)`; the alpha
channel is copied from the base color. -/
def compute_lighting (normal : Vec3) (base_color : ℕ × ℕ × ℕ × ℕ)
    (lights : Fin 4 → DirectionalLight) (ambient : AmbientLight) :
    ℕ × ℕ × ℕ × ℕ :=
  let lit := [lights 0, lights 1, lights 2, lights 3].foldl
    (fun acc light =>
      let n_dot_l := max (Vec3.dot normal light.direction) 0
      (acc.1 + n_dot_l * light.color.x,
       acc.2.1 + n_dot_l * light.color.y,
       acc.2.2 + n_dot_l * light.color.z))
    (ambient.color.x, ambient.color.y, ambient.color.z)
  let r := min (u32Sat (ftrunc (lit.1 * (base_color.1 : ℚ)))) 255
  let g := min (u32Sat (ftrunc (lit.2.1 * (base_color.2.1 : ℚ)))) 255
  let b := min (u32Sat (ftrunc (lit.2.2 * (base_color.2.2.1 : ℚ)))) 255
  (r, g, b, base_color.2.2.2)

/-- C6: `compute_lighting` returns, per channel, ambient plus the sum over
the four lights of `max(0, dot(normal, direction)) * light_color`,
modulated by the base color and clamped to `[0, 255]` (so over-bright
sums saturate at 255, never wrap), with alpha passed through unchanged;
zero ambient and zero directional light on a white surface gives
`[0,0,0,alpha]`, and ambient 1.0 with no directional lights on base
`[128,64,32,200]` gives exactly `[128,64,32,200]`. -/
theorem compute_lighting_spec :
    (∀ (n : Vec3) (base : ℕ × ℕ × ℕ × ℕ) (lights : Fin 4 → DirectionalLight)
        (amb : AmbientLight),
      compute_lighting n base lights amb =
        (min (u32Sat (ftrunc ((amb.color.x +
            ∑ i : Fin 4, max (Vec3.dot n (lights i).direction) 0 * (lights i).color.x) *
              (base.1 : ℚ)))) 255,
         min (u32Sat (ftrunc ((amb.color.y +
            ∑ i : Fin 4, max (Vec3.dot n (lights i).direction) 0 * (lights i).color.y) *
              (base.2.1 : ℚ)))) 255,
         min (u32Sat (ftrunc ((amb.color.z +
            ∑ i : Fin 4, max (Vec3.dot n (lights i).direction) 0 * (lights i).color.z) *
              (base.2.2.1 : ℚ)))) 255,
         base.2.2.2))
    ∧ (∀ (n : Vec3) (base : ℕ × ℕ × ℕ × ℕ) (lights : Fin 4 → DirectionalLight)
        (amb : AmbientLight),
      (compute_lighting n base lights amb).1 ≤ 255
      ∧ (compute_lighting n base lights amb).2.1 ≤ 255
      ∧ (compute_lighting n base lights amb).2.2.1 ≤ 255
      ∧ (compute_lighting n base lights amb).2.2.2 = base.2.2.2)
    ∧ (∀ a : ℕ, compute_lighting ⟨0, 0, 1⟩ (255, 255, 255, a)
        (fun _ => ⟨⟨0, 0, 0⟩, ⟨0, 0, 0⟩⟩) ⟨⟨0, 0, 0⟩⟩ = (0, 0, 0, a))
    ∧ compute_lighting ⟨0, 0, 1⟩ (128, 64, 32, 200)
        (fun _ => ⟨⟨0, 0, 0⟩, ⟨0, 0, 0⟩⟩) ⟨⟨1, 1, 1⟩⟩ = (128, 64, 32, 200)
    ∧ compute_lighting ⟨0, 0, 1⟩ (255, 255, 255, 7)
        (fun _ => ⟨⟨0, 0, 0⟩, ⟨0, 0, 0⟩⟩) ⟨⟨2, 2, 2⟩⟩ = (255, 255, 255, 7) := by
  refine ⟨?_, ?_, ?_, ?_, ?_⟩
  · intro n base lights amb
    simp only [compute_lighting, List.foldl, Fin.sum_univ_four]
    ring_nf
  · intro n base lights amb
    refine ⟨min_le_right _ _, min_le_right _ _, min_le_right _ _, rfl⟩
  · intro a
    norm_num [compute_lighting, Vec3.dot, u32Sat, ftrunc]
  · norm_num [compute_lighting, Vec3.dot, u32Sat, ftrunc, Int.toNat_ofNat]
    decide
  · norm_num [compute_lighting, Vec3.dot, u32Sat, ftrunc, Int.toNat_ofNat]

/-! ## Render commands and mesh orchestrator
(src/crates/pico-gs-core/src/render/mod.rs, mesh.rs) -/

/-- `RenderFlags` (render/mod.rs:53-60). -/
structure RenderFlags where
  gouraud : Bool
  textured : Bool
  z_test : Bool
  z_write : Bool
  color_write : Bool
deriving DecidableEq

/-- `ScreenTriangleCommand` (render/mod.rs:114-119). -/
structure ScreenTriangleCommand where
  v0 : GpuVertex
  v1 : GpuVertex
  v2 : GpuVertex
  textured : Bool
deriving DecidableEq

/-- `UploadTextureCommand` (render/mod.rs:123-128). -/
structure UploadTextureCommand where
  gpu_dword_addr : ℕ
  texture_id : ℕ
deriving DecidableEq

/-- `RenderCommand` (render/mod.rs:92-110). -/
inductive RenderCommand where
  | SubmitScreenTriangle (cmd : ScreenTriangleCommand)
  | WaitVsync
  | ClearFramebuffer (cmd : ClearCommand)
  | SetRenderMode (flags : RenderFlags)
  | SetZRange (z_min z_max : ℕ)
  | UploadTexture (cmd : UploadTextureCommand)
deriving DecidableEq

/-- `transform_normal` (transform.rs:56-62): direction-only multiply
(W = 0) followed by glam `normalize_or_zero`.  The renormalization
divides by a square root, which has no exact rational representative; it
is taken as the parameter `nrm`, and the theorems below hold for every
`nrm`. -/
def transform_normal (nrm : Vec3 → Vec3) (normal : Vec3) (mv : Mat4) : Vec3 :=
  let n4 := mv.mulVec4 ⟨normal.x, normal.y, normal.z, 0⟩
  nrm ⟨n4.x, n4.y, n4.z⟩

/-- `MAX_TRANSFORMED` (mesh.rs:14): scratch capacity of `render_mesh`. -/
def MAX_TRANSFORMED : ℕ := 148

/-- `TransformedVertex` (mesh.rs:18-21). -/
structure TransformedVertex where
  screen : ScreenVertex
  color : ℕ × ℕ × ℕ × ℕ

/-- `MeshRef` (mesh.rs:25-29). -/
structure MeshRef where
  positions : List Vec3
  normals : List Vec3
  indices : List (ℕ × ℕ × ℕ)

/-- `screen_to_gpu` (mesh.rs:102-104). -/
def screen_to_gpu (sv : ScreenVertex) (color : ℕ × ℕ × ℕ × ℕ) : GpuVertex :=
  GpuVertex.from_color_position color.1 color.2.1 color.2.2.1 color.2.2.2
    sv.x sv.y sv.z

/-- `render_mesh` (mesh.rs:36-99).  Phase 1 transforms and lights the
first `min(positions.len(), MAX_TRANSFORMED)` vertices (the source only
ever reads scratch entries below `vert_count`, so the per-index function
`tv` models the scratch array); phase 2 skips triangles with any index
`≥ vert_count` via `continue`, culls back-facing triangles, and emits one
`SubmitScreenTriangle` per survivor.  The returned list models the
`enqueue` closure calls in order; the Rust function returns `()` and has
no error channel. -/
def render_mesh (nrm : Vec3 → Vec3) (mesh : MeshRef) (mvp mv : Mat4)
    (base_color : ℕ × ℕ × ℕ × ℕ) (lights : Fin 4 → DirectionalLight)
    (ambient : AmbientLight) : List RenderCommand :=
  let vert_count := min mesh.positions.length MAX_TRANSFORMED
  let tv : ℕ → TransformedVertex := fun i =>
    let pos := mesh.positions.getD i ⟨0, 0, 0⟩
    let norm := mesh.normals.getD i ⟨0, 0, 0⟩
    let screen := transform_vertex pos mvp
    let eye_normal := transform_normal nrm norm mv
    let color := compute_lighting eye_normal base_color lights ambient
    ⟨screen, color⟩
  mesh.indices.filterMap fun t =>
    if t.1 ≥ vert_count ∨ t.2.1 ≥ vert_count ∨ t.2.2 ≥ vert_count then
      none
    else
      let tv0 := tv t.1
      let tv1 := tv t.2.1
      let tv2 := tv t.2.2
      if ¬ is_front_facing tv0.screen tv1.screen tv2.screen then
        none
      else
        some (RenderCommand.SubmitScreenTriangle
          ⟨screen_to_gpu tv0.screen tv0.color,
           screen_to_gpu tv1.screen tv1.color,
           screen_to_gpu tv2.screen tv2.color, false⟩)

/-- C9 (code bug): for a mesh of 149 vertices — one more than the scratch
capacity `MAX_TRANSFORMED = 148` — `render_mesh` silently emits nothing
for a triangle referencing vertex 148, for every renormalization, MVP,
base color and lighting setup: the geometry is truncated with no error
signal (the source returns `()`), where the spec requires a loud failure.
The companion clause shows an in-capacity mesh does emit its triangle, so
the drop is caused by the capacity bound alone. -/
theorem render_mesh_silent_truncation :
    ∀ (nrm : Vec3 → Vec3) (mvp mv : Mat4) (base : ℕ × ℕ × ℕ × ℕ)
      (lights : Fin 4 → DirectionalLight) (ambient : AmbientLight),
      render_mesh nrm
        ⟨(List.range 149).map (fun i => ⟨(i : ℚ), 0, 0⟩),
         (List.range 149).map (fun _ => ⟨0, 0, 1⟩),
         [(0, 1, 148)]⟩ mvp mv base lights ambient = []
      ∧ (render_mesh nrm
          ⟨[⟨0, 0, 0⟩, ⟨1, 1, 0⟩, ⟨1, -1, 0⟩],
           [⟨0, 0, 1⟩, ⟨0, 0, 1⟩, ⟨0, 0, 1⟩],
           [(0, 1, 2)]⟩ Mat4.identity mv (255, 255, 255, 255)
          (fun _ => ⟨⟨0, 0, 0⟩, ⟨0, 0, 0⟩⟩) ⟨⟨1, 1, 1⟩⟩).length = 1 := by
  intro nrm mvp mv base lights ambient
  constructor
  · simp [render_mesh, MAX_TRANSFORMED]
  · simp only [render_mesh, MAX_TRANSFORMED]
    norm_num [transform_vertex, Mat4.mulVec4, Mat4.identity, is_front_facing,
      rclamp, min_def, max_def, registers.SCREEN_WIDTH, registers.SCREEN_HEIGHT,
      List.filterMap]
